import Mathlib

/-!
Shallow embedding of `RadarTLL_nmeaout_Boko.py`: the TLL sentence builder
(`gen_tll`), the position-source adapter (`get_data`) and one iteration of the
poll loop in `main`.

Numbers are modelled as exact rationals (`ℚ`); the Python source computes with
IEEE floats, and every concrete input used below is chosen far from rounding
boundaries, where float and exact arithmetic agree.  Python `%0Nd` formatting
of a non-negative float truncates it (equals its floor); the Python
one-argument `round` is round-half-to-even.
-/

namespace RadarTLL

/-- Decimal digit character, as produced by Python's `%d` formatting. -/
def decDigitChar (n : ℕ) : Char := Char.ofNat (48 + n % 10)

/-- Fuel-indexed decimal rendering of a natural number, most significant digit
first.  The fuel is always taken large enough (`n + 1`) that it never runs out. -/
def decReprAux : ℕ → ℕ → List Char
  | 0, _ => []
  | fuel + 1, n => if n < 10 then [decDigitChar n] else decReprAux fuel (n / 10) ++ [decDigitChar (n % 10)]

/-- Decimal rendering of a natural number (Python `'%d' % n` for `n ≥ 0`). -/
def decRepr (n : ℕ) : String := String.mk (decReprAux (n + 1) n)

/-- Python `'%0wd' % n` for `n ≥ 0`: decimal rendering left-padded with zeros
to a minimum width `w`. -/
def padNum (w : ℕ) (n : ℕ) : String :=
  String.mk (List.replicate (w - (decRepr n).length) '0') ++ decRepr n

/-- Uppercase hexadecimal digit character, as produced by Python's `%X`. -/
def hexDigitChar (n : ℕ) : Char :=
  if n % 16 < 10 then Char.ofNat (48 + n % 16) else Char.ofNat (55 + n % 16)

/-- Fuel-indexed uppercase hexadecimal rendering, most significant digit first. -/
def hexReprAux : ℕ → ℕ → List Char
  | 0, _ => []
  | fuel + 1, n => if n < 16 then [hexDigitChar n] else hexReprAux fuel (n / 16) ++ [hexDigitChar (n % 16)]

/-- Uppercase hexadecimal rendering of a natural number (Python `'%X' % n`). -/
def hexRepr (n : ℕ) : String := String.mk (hexReprAux (n + 1) n)

/-- Python `'%0.2X' % n`: uppercase hexadecimal, zero-padded to at least two
digits. -/
def hexPad2 (n : ℕ) : String :=
  String.mk (List.replicate (2 - (hexRepr n).length) '0') ++ hexRepr n

/-- Value of an uppercase hexadecimal digit character (used to state the
checksum round-trip, i.e. to parse the two digits after `*` back to a number). -/
def hexDigitVal (c : Char) : ℕ := if 65 ≤ c.toNat then c.toNat - 55 else c.toNat - 48

/-- Parse a string of uppercase hexadecimal digits back to a number. -/
def hexVal (s : String) : ℕ := s.data.foldl (fun a c => 16 * a + hexDigitVal c) 0

/-- Python's one-argument `round`: round half to even. -/
def pyround (q : ℚ) : ℤ :=
  if q - ⌊q⌋ < 1/2 then ⌊q⌋
  else if 1/2 < q - ⌊q⌋ then ⌊q⌋ + 1
  else if ⌊q⌋ % 2 = 0 then ⌊q⌋ else ⌊q⌋ + 1

/-- The fields of Python's `time.struct_time` that `gen_tll` reads. -/
structure TimeT where
  tm_hour : ℕ
  tm_min : ℕ
  tm_sec : ℕ

/-- `hhmmssss = '%02d%02d%02d%s' % (tm_hour, tm_min, tm_sec, '.%02d' if 0 != 0 else '')`
(source line 48): the condition `0 != 0` is always false, so the fractional
part is always the empty string. -/
def hhmmssss (time_t : TimeT) : String :=
  padNum 2 time_t.tm_hour ++ padNum 2 time_t.tm_min ++ padNum 2 time_t.tm_sec ++
    (if (0 : ℕ) ≠ 0 then ".%02d" else "")

/-- `lat_min = (lat_abs - floor(lat_deg)) * 60` (source line 52, with
`lat_deg = lat_abs`). -/
def latMinQ (lat : ℚ) : ℚ := (|lat| - ⌊|lat|⌋) * 60

/-- `lat_sec = round((lat_min - floor(lat_min)) * 1000)` (source line 53). -/
def latSec (lat : ℚ) : ℤ := pyround ((latMinQ lat - ⌊latMinQ lat⌋) * 1000)

/-- `lat_pole_prime = 'S' if lat < 0 else 'N'` (source line 54). -/
def lat_pole_prime (lat : ℚ) : String := if lat < 0 then "S" else "N"

/-- `lat_format = '%02d%02d.%03d' % (lat_deg, lat_min, lat_sec)` (source
line 55); `%d` of the non-negative floats `lat_deg`, `lat_min` truncates,
i.e. takes their floor. -/
def lat_format (lat : ℚ) : String :=
  padNum 2 (⌊|lat|⌋).toNat ++ padNum 2 (⌊latMinQ lat⌋).toNat ++ "." ++ padNum 3 (latSec lat).toNat

/-- `lng_min = (lng_abs - floor(lng_deg)) * 60` (source line 59). -/
def lngMinQ (lng : ℚ) : ℚ := (|lng| - ⌊|lng|⌋) * 60

/-- `lng_sec = round((lng_min - floor(lng_min)) * 1000)` (source line 60). -/
def lngSec (lng : ℚ) : ℤ := pyround ((lngMinQ lng - ⌊lngMinQ lng⌋) * 1000)

/-- `lng_pole_prime = 'W' if lng < 0 else 'E'` (source line 61). -/
def lng_pole_prime (lng : ℚ) : String := if lng < 0 then "W" else "E"

/-- `lng_format = '%03d%02d.%03d' % (lng_deg, lng_min, lng_sec)` (source line 62). -/
def lng_format (lng : ℚ) : String :=
  padNum 3 (⌊|lng|⌋).toNat ++ padNum 2 (⌊lngMinQ lng⌋).toNat ++ "." ++ padNum 3 (lngSec lng).toNat

/-- `result = 'RATLL,01,%s,%s,%s,%s,%s,%s,%s' % (lat_format, lat_pole_prime,
lng_format, lng_pole_prime, 'ROV', hhmmssss, T)` (source line 65).  The third
`%s` argument is the literal `'ROV'`, not the caller-supplied `ROV` parameter. -/
def tll_body (lat lng : ℚ) (ROV : String) (time_t : TimeT) (T : String) : String :=
  "RATLL,01," ++ lat_format lat ++ "," ++ lat_pole_prime lat ++ "," ++
    lng_format lng ++ "," ++ lng_pole_prime lng ++ "," ++ "ROV" ++ "," ++
    hhmmssss time_t ++ "," ++ T

/-- `crc = 0; for c in result: crc = crc ^ ord(c)` (source lines 66–68). -/
def foldXor (s : String) : ℕ := s.data.foldl (fun a c => Nat.xor a c.toNat) 0

/-- `crc = crc & 0xFF` applied to the accumulated XOR (source line 69). -/
def crcOf (s : String) : ℕ := Nat.land (foldXor s) 255

/-- `gen_tll` (source lines 46–71): `'$%s*%0.2X' % (result, crc)`. -/
def gen_tll (lat lng : ℚ) (ROV : String) (time_t : TimeT) (T : String) : String :=
  "$" ++ tll_body lat lng ROV time_t T ++ "*" ++ hexPad2 (crcOf (tll_body lat lng ROV time_t T))

/-- A JSON value, as produced by `r.json()`. -/
inductive JVal where
  | null : JVal
  | bool (b : Bool) : JVal
  | num (q : ℚ) : JVal
  | str (s : String) : JVal
  | obj (fields : List (String × JVal)) : JVal
  | arr (elems : List JVal) : JVal

/-- Python truthiness of a JSON value, as tested by `if pos:` (source
line 109): `None`/`null`, `False`, `0`, `""`, `{}` and `[]` are falsy. -/
def JVal.truthy : JVal → Bool
  | .null => false
  | .bool b => b
  | .num q => decide (q ≠ 0)
  | .str s => decide (s ≠ "")
  | .obj fields => !fields.isEmpty
  | .arr elems => !elems.isEmpty

/-- Python `pos[k]` followed by use as a number in `gen_tll` (source
line 111): a missing key raises `KeyError`, indexing a non-dict or feeding a
non-numeric value to `abs` raises `TypeError`.  An uncaught exception is
modelled as `Except.error`. -/
def getNumField (v : JVal) (k : String) : Except String ℚ :=
  match v with
  | .obj fields =>
    match fields.lookup k with
    | some (.num q) => Except.ok q
    | some _ => Except.error "TypeError"
    | none => Except.error "KeyError"
  | _ => Except.error "TypeError"

/-- The possible outcomes of `requests.get(url)` (source line 32): the request
raises a `RequestException`, or an HTTP response arrives with a status code
and a body.  The body is recorded as `some v` when it is well-formed JSON
decoding to `v`, and `none` when `r.json()` would raise. -/
inductive FetchOutcome where
  | exn (msg : String) : FetchOutcome
  | resp (status : ℕ) (body : Option JVal) : FetchOutcome

/-- `get_data` (source lines 30–41).  `requests.codes.ok` is 200.  A
`RequestException` is caught and yields `None`; a non-200 status yields
`None`; otherwise `r.json()` is called with no exception handler, so a
malformed body raises an uncaught `JSONDecodeError` (`Except.error`). -/
def get_data : FetchOutcome → Except String (Option JVal)
  | .exn _ => Except.ok none
  | .resp status body =>
    if status ≠ 200 then Except.ok none
    else
      match body with
      | none => Except.error "JSONDecodeError"
      | some v => Except.ok (some v)

/-- Observable actions of one iteration of the `while True` loop in `main`
(source lines 107–117). -/
inductive Event where
  | printed (s : String) : Event
  | udp (payload : String) : Event
  | serialWrite (payload : String) : Event
  | slept (seconds : ℕ) : Event
  deriving DecidableEq

/-- One iteration of the poll loop in `main` (source lines 107–117).
`hasSock`/`hasSer` record whether the UDP socket and the serial port are
configured; `serOk` records whether `ser.write` succeeds (a broken serial
device raises).  Returns the events of the iteration in program order and
`some e` when the iteration ends in an uncaught exception `e` (which
terminates the process), `none` when it runs to completion.  Note that
`time.sleep(1)` (line 117) sits inside the `if pos:` block, and that no
write or JSON access is wrapped in a handler. -/
def loopCycle (hasSock hasSer serOk : Bool) (f : FetchOutcome) (t : TimeT) :
    List Event × Option String :=
  match get_data f with
  | .error e => ([], some e)
  | .ok none => ([], none)
  | .ok (some pos) =>
    if pos.truthy then
      match getNumField pos "lat" with
      | .error e => ([], some e)
      | .ok lat =>
        match getNumField pos "lon" with
        | .error e => ([], some e)
        | .ok lon =>
          let sentence := gen_tll lat lon "ROV" t "T"
          let evs := [Event.printed sentence] ++ (if hasSock then [Event.udp sentence] else [])
          if hasSer then
            if serOk then (evs ++ [Event.serialWrite (sentence ++ "\n"), Event.slept 1], none)
            else (evs, some "SerialException")
          else (evs ++ [Event.slept 1], none)
    else ([], none)

/-! ## Helper lemmas -/

lemma and255_eq_mod (x : ℕ) : x &&& 255 = x % 256 := by
  have h := Nat.and_pow_two_sub_one_eq_mod x 8
  norm_num at h
  exact h

lemma xor_mod_256 (a b : ℕ) : Nat.xor a b % 256 = Nat.xor (a % 256) (b % 256) := by
  have h := Nat.and_xor_distrib_right (a := a) (b := b) (c := 255)
  rw [and255_eq_mod, and255_eq_mod, and255_eq_mod] at h
  exact h

lemma crcOf_eq_mod (s : String) : crcOf s = foldXor s % 256 := and255_eq_mod _

lemma crcOf_lt (s : String) : crcOf s < 256 := by
  rw [crcOf_eq_mod]; exact Nat.mod_lt _ (by norm_num)

lemma foldXor_mod (l : List Char) (a : ℕ) :
    (l.foldl (fun x c => Nat.xor x c.toNat) a) % 256 =
      (l.foldl (fun x c => Nat.xor x (c.toNat % 256)) (a % 256)) % 256 := by
  induction l generalizing a with
  | nil => simp
  | cons c l ih =>
    simp only [List.foldl_cons]
    rw [ih, xor_mod_256]

set_option maxHeartbeats 1000000 in
set_option maxRecDepth 10000 in
lemma hexPad2_spec : ∀ n < 256, (hexPad2 n).length = 2 ∧
    (∀ c ∈ (hexPad2 n).data, c ∈ "0123456789ABCDEF".data) ∧
    hexVal (hexPad2 n) = n := by decide

lemma decReprAux_len_le : ∀ (fuel n k : ℕ), n < fuel → n < 10 ^ k → 1 ≤ k →
    (decReprAux fuel n).length ≤ k := by
  intro fuel
  induction fuel with
  | zero => intro n k hn _ _; omega
  | succ f ih =>
    intro n k hn hk hk1
    by_cases h10 : n < 10
    · simp only [decReprAux, if_pos h10, List.length_singleton]
      omega
    · simp only [decReprAux, if_neg h10, List.length_append, List.length_singleton]
      have hk2 : 2 ≤ k := by
        by_contra hcon
        have : k = 1 := by omega
        subst this
        simp at hk
        omega
      have h1 : n / 10 < f := by
        have := Nat.div_lt_self (by omega : 0 < n) (by omega : 1 < 10)
        omega
      have h2 : n / 10 < 10 ^ (k - 1) := by
        rw [Nat.div_lt_iff_lt_mul (by omega : 0 < 10)]
        calc n < 10 ^ k := hk
        _ = 10 ^ (k - 1) * 10 := by
            rw [← pow_succ]
            congr 1
            omega
      have := ih (n / 10) (k - 1) h1 h2 (by omega)
      omega

lemma decRepr_len_le (n k : ℕ) (h : n < 10 ^ k) (hk : 1 ≤ k) : (decRepr n).length ≤ k := by
  unfold decRepr
  show (decReprAux (n + 1) n).length ≤ k
  exact decReprAux_len_le (n + 1) n k (by omega) h hk

lemma padNum_length (w n : ℕ) (hw : 1 ≤ w) (h : n < 10 ^ w) : (padNum w n).length = w := by
  unfold padNum
  rw [String.length_append]
  have hle := decRepr_len_le n w h hw
  show (List.replicate (w - (decRepr n).length) '0').length + _ = w
  rw [List.length_replicate]
  omega

lemma pyround_eq_floor {q : ℚ} (h : q - ⌊q⌋ < 1/2) : pyround q = ⌊q⌋ := by
  unfold pyround; rw [if_pos h]

lemma pyround_eq_floor_add_one {q : ℚ} (h : 1/2 < q - ⌊q⌋) : pyround q = ⌊q⌋ + 1 := by
  unfold pyround; rw [if_neg (by linarith), if_pos h]

lemma pyround_nonneg {q : ℚ} (h : 0 ≤ q) : 0 ≤ pyround q := by
  have h0 : 0 ≤ ⌊q⌋ := Int.floor_nonneg.mpr h
  unfold pyround
  split
  · exact h0
  · split
    · omega
    · split
      · exact h0
      · omega

/-- Evaluation of the latitude encoder at the example value 56.05617. -/
lemma lat_format_at_example : lat_format (5605617/100000) = "5603.370" := by
  have habs : |(5605617/100000 : ℚ)| = 5605617/100000 := by rw [abs_of_nonneg]; norm_num
  have hfl : (⌊(5605617/100000 : ℚ)⌋ : ℤ) = 56 := by norm_num [Int.floor_eq_iff]
  have hmin : latMinQ (5605617/100000) = 33702/10000 := by
    unfold latMinQ; rw [habs, hfl]; norm_num
  have hfl2 : (⌊(33702/10000 : ℚ)⌋ : ℤ) = 3 := by norm_num [Int.floor_eq_iff]
  have hsec : latSec (5605617/100000) = 370 := by
    unfold latSec
    rw [hmin, hfl2]
    have hx : ((33702/10000 : ℚ) - ((3 : ℤ) : ℚ)) * 1000 = 3702/10 := by norm_num
    rw [hx]
    have h370 : (⌊(3702/10 : ℚ)⌋ : ℤ) = 370 := by norm_num [Int.floor_eq_iff]
    rw [pyround_eq_floor (by rw [h370]; norm_num), h370]
  unfold lat_format
  rw [habs, hfl, hmin, hfl2, hsec]
  rfl

/-- Evaluation of the longitude encoder at the example value 18.99960. -/
lemma lng_format_at_example : lng_format (1899960/100000) = "01859.976" := by
  have habs : |(1899960/100000 : ℚ)| = 1899960/100000 := by rw [abs_of_nonneg]; norm_num
  have hfl : (⌊(1899960/100000 : ℚ)⌋ : ℤ) = 18 := by norm_num [Int.floor_eq_iff]
  have hmin : lngMinQ (1899960/100000) = 59976/1000 := by
    unfold lngMinQ; rw [habs, hfl]; norm_num
  have hfl2 : (⌊(59976/1000 : ℚ)⌋ : ℤ) = 59 := by norm_num [Int.floor_eq_iff]
  have hsec : lngSec (1899960/100000) = 976 := by
    unfold lngSec
    rw [hmin, hfl2]
    have hx : ((59976/1000 : ℚ) - ((59 : ℤ) : ℚ)) * 1000 = 976 := by norm_num
    rw [hx]
    have h976 : (⌊(976 : ℚ)⌋ : ℤ) = 976 := by norm_num
    rw [pyround_eq_floor (by rw [h976]; norm_num), h976]
  unfold lng_format
  rw [habs, hfl, hmin, hfl2, hsec]
  rfl

/-- Evaluation of the longitude encoder at 599999/150000 = 3° 59.9996′, a value
whose minute fraction rounds up to 1000 thousandths. -/
lemma lng_format_at_carry : lng_format (599999/150000) = "00359.1000" := by
  have habs : |(599999/150000 : ℚ)| = 599999/150000 := by rw [abs_of_nonneg]; norm_num
  have hfl : (⌊(599999/150000 : ℚ)⌋ : ℤ) = 3 := by norm_num [Int.floor_eq_iff]
  have hmin : lngMinQ (599999/150000) = 149999/2500 := by
    unfold lngMinQ; rw [habs, hfl]; norm_num
  have hfl2 : (⌊(149999/2500 : ℚ)⌋ : ℤ) = 59 := by norm_num [Int.floor_eq_iff]
  have hsec : lngSec (599999/150000) = 1000 := by
    unfold lngSec
    rw [hmin, hfl2]
    have hx : ((149999/2500 : ℚ) - ((59 : ℤ) : ℚ)) * 1000 = 4998/5 := by norm_num
    rw [hx]
    have h999 : (⌊(4998/5 : ℚ)⌋ : ℤ) = 999 := by norm_num [Int.floor_eq_iff]
    rw [pyround_eq_floor_add_one (by rw [h999]; norm_num), h999]
    decide
  unfold lng_format
  rw [habs, hfl, hmin, hfl2, hsec]
  rfl

/-! ## Claim theorems -/

/-- C1: for every finite latitude, longitude, time and status input, the
sentence returned by `gen_tll` is `$` ++ body ++ `*` ++ HH where HH is exactly
two uppercase hexadecimal digits whose value is the cumulative XOR of the
8-bit character codes of the body characters, masked to 8 bits. -/
theorem gen_tll_checksum_framing (lat lng : ℚ) (name : String) (t : TimeT) (T : String) :
    gen_tll lat lng name t T =
      "$" ++ tll_body lat lng name t T ++ "*" ++ hexPad2 (crcOf (tll_body lat lng name t T))
    ∧ hexVal (hexPad2 (crcOf (tll_body lat lng name t T))) =
        (tll_body lat lng name t T).data.foldl (fun a c => Nat.xor a (c.toNat % 256)) 0 % 256
    ∧ (hexPad2 (crcOf (tll_body lat lng name t T))).length = 2
    ∧ ∀ c ∈ (hexPad2 (crcOf (tll_body lat lng name t T))).data, c ∈ "0123456789ABCDEF".data := by
  have hlt := crcOf_lt (tll_body lat lng name t T)
  have hspec := hexPad2_spec _ hlt
  refine ⟨rfl, ?_, hspec.1, hspec.2.1⟩
  rw [hspec.2.2, crcOf_eq_mod]
  simpa using foldXor_mod (tll_body lat lng name t T).data 0

/-- Witness for C1 at a concrete input. -/
theorem gen_tll_checksum_framing_w :
    (hexPad2 (crcOf (tll_body 0 0 "ROV" ⟨0, 0, 0⟩ "T"))).length = 2 :=
  (gen_tll_checksum_framing 0 0 "ROV" ⟨0, 0, 0⟩ "T").2.2.1

/-- C2: at latitude 56.05617, longitude 18.99960, time 01:52:00 UTC and status
`T`, the sentence is `$RATLL,01,5603.370,N,01859.976,E,ROV,015200,T*` followed
by the two checksum hex digits of that body. -/
theorem gen_tll_example :
    gen_tll (5605617/100000) (1899960/100000) "ROV" ⟨1, 52, 0⟩ "T" =
      "$RATLL,01,5603.370,N,01859.976,E,ROV,015200,T*" ++
        hexPad2 (crcOf "RATLL,01,5603.370,N,01859.976,E,ROV,015200,T") := by
  have hpl : lat_pole_prime (5605617/100000) = "N" := by
    unfold lat_pole_prime
    rw [if_neg (by norm_num : ¬((5605617/100000 : ℚ) < 0))]
  have hpg : lng_pole_prime (1899960/100000) = "E" := by
    unfold lng_pole_prime
    rw [if_neg (by norm_num : ¬((1899960/100000 : ℚ) < 0))]
  unfold gen_tll tll_body
  rw [lat_format_at_example, lng_format_at_example, hpl, hpg]
  rfl

/-- C3: the claim says a coordinate whose minutes round to 60.000 carries into
the degrees field.  The code does not carry: at latitude 599999/150000
(3 degrees 59.9996 minutes) it renders degrees 03, minutes 59 and a four-digit
fractional field 1000, i.e. `0359.1000` instead of the carried `0400.000`. -/
theorem lat_format_missing_carry : lat_format (599999/150000) = "0359.1000" := by
  have habs : |(599999/150000 : ℚ)| = 599999/150000 := by rw [abs_of_nonneg]; norm_num
  have hfl : (⌊(599999/150000 : ℚ)⌋ : ℤ) = 3 := by norm_num [Int.floor_eq_iff]
  have hmin : latMinQ (599999/150000) = 149999/2500 := by
    unfold latMinQ; rw [habs, hfl]; norm_num
  have hfl2 : (⌊(149999/2500 : ℚ)⌋ : ℤ) = 59 := by norm_num [Int.floor_eq_iff]
  have hsec : latSec (599999/150000) = 1000 := by
    unfold latSec
    rw [hmin, hfl2]
    have hx : ((149999/2500 : ℚ) - ((59 : ℤ) : ℚ)) * 1000 = 4998/5 := by norm_num
    rw [hx]
    have h999 : (⌊(4998/5 : ℚ)⌋ : ℤ) = 999 := by norm_num [Int.floor_eq_iff]
    rw [pyround_eq_floor_add_one (by rw [h999]; norm_num), h999]
    decide
  unfold lat_format
  rw [habs, hfl, hmin, hfl2, hsec]
  rfl

/-- C4 counterexample: a cycle whose fetch raises (position unavailable)
performs no sleep at all — the events of the iteration are empty, so the
claimed unconditional Polling to Idle-Wait transition does not happen. -/
theorem loop_unconditional_sleep_cx :
    loopCycle true false true (FetchOutcome.exn "connection refused") ⟨1, 52, 0⟩ = ([], none) ∧
    Event.slept 1 ∉ (loopCycle true false true (FetchOutcome.exn "connection refused")
      ⟨1, 52, 0⟩).1 :=
  ⟨rfl, by decide⟩

/-- C4 amended: the 1-second sleep happens only in cycles whose fetch produced
a truthy position with numeric lat and lon fields (and whose sink writes
succeed); after an Unavailable fetch the loop proceeds immediately to the
next fetch attempt with no delay. -/
theorem loop_sleep_only_on_success (hasSock hasSer : Bool) (t : TimeT) (f : FetchOutcome) :
    (get_data f = Except.ok none → loopCycle hasSock hasSer true f t = ([], none)) ∧
    (∀ v lat lon, get_data f = Except.ok (some v) → v.truthy = true →
      getNumField v "lat" = Except.ok lat → getNumField v "lon" = Except.ok lon →
      Event.slept 1 ∈ (loopCycle hasSock hasSer true f t).1) := by
  constructor
  · intro h
    unfold loopCycle
    rw [h]
  · intro v lat lon hv ht hlat hlon
    unfold loopCycle
    rw [hv]
    simp only [ht, if_true]
    rw [hlat, hlon]
    cases hasSer <;> cases hasSock <;> simp

/-- Witness for the amended C4 at concrete inputs. -/
theorem loop_sleep_only_on_success_w :
    Event.slept 1 ∈ (loopCycle true true true
      (FetchOutcome.resp 200 (some (JVal.obj [("lat", JVal.num 0), ("lon", JVal.num 0)])))
      ⟨1, 52, 0⟩).1 :=
  (loop_sleep_only_on_success true true ⟨1, 52, 0⟩
      (FetchOutcome.resp 200 (some (JVal.obj [("lat", JVal.num 0), ("lon", JVal.num 0)])))).2
    (JVal.obj [("lat", JVal.num 0), ("lon", JVal.num 0)]) 0 0 rfl rfl rfl rfl

/-- C5 counterexample: a decode failure (success status, malformed body) does
not yield the Unavailable result `None` — `r.json()` raises an uncaught
exception instead. -/
theorem get_data_decode_failure_cx :
    get_data (FetchOutcome.resp 200 none) = Except.error "JSONDecodeError" ∧
    (Except.error "JSONDecodeError" : Except String (Option JVal)) ≠ Except.ok none :=
  ⟨rfl, fun h => Except.noConfusion h⟩

/-- C5 amended: transport failures and protocol failures both yield the
Unavailable result `None` and the loop continues, but a decode failure raises
an uncaught exception from `r.json()`, and a body missing the `lat` field
crashes the loop with an uncaught KeyError. -/
theorem get_data_failure_classes (msg : String) (status : ℕ) (body : Option JVal)
    (hasSock hasSer serOk : Bool) (t : TimeT) :
    get_data (FetchOutcome.exn msg) = Except.ok none ∧
    (status ≠ 200 → get_data (FetchOutcome.resp status body) = Except.ok none) ∧
    get_data (FetchOutcome.resp 200 none) = Except.error "JSONDecodeError" ∧
    loopCycle hasSock hasSer serOk
        (FetchOutcome.resp 200 (some (JVal.obj [("other", JVal.num 1)]))) t
      = ([], some "KeyError") := by
  refine ⟨rfl, ?_, rfl, rfl⟩
  intro h
  simp only [get_data]
  rw [if_pos h]

/-- Witness for the amended C5 at a concrete input (HTTP 500). -/
theorem get_data_failure_classes_w :
    get_data (FetchOutcome.resp 500 none) = Except.ok none :=
  (get_data_failure_classes "x" 500 none true true true ⟨0, 0, 0⟩).2.1 (by decide)

/-- C6 counterexample: with both sinks configured and a failing serial write,
the iteration ends in an uncaught SerialException — the loop terminates,
contrary to the claim that a sink failure never crashes the loop. -/
theorem sink_isolation_cx :
    loopCycle true true false
        (FetchOutcome.resp 200 (some (JVal.obj [("lat", JVal.num 0), ("lon", JVal.num 0)])))
        ⟨1, 52, 0⟩
      = ([Event.printed (gen_tll 0 0 "ROV" ⟨1, 52, 0⟩ "T"),
          Event.udp (gen_tll 0 0 "ROV" ⟨1, 52, 0⟩ "T")], some "SerialException") ∧
    (loopCycle true true false
        (FetchOutcome.resp 200 (some (JVal.obj [("lat", JVal.num 0), ("lon", JVal.num 0)])))
        ⟨1, 52, 0⟩).2 ≠ none :=
  ⟨rfl, fun h => Option.noConfusion h⟩

/-- C6 amended: because the UDP write precedes the serial write, the sentence
is still sent over UDP when the serial write fails; but the serial failure is
uncaught, so the iteration ends in a crash instead of continuing. -/
theorem udp_sent_despite_serial_failure (lat lon : ℚ) (t : TimeT) :
    loopCycle true true false
        (FetchOutcome.resp 200 (some (JVal.obj [("lat", JVal.num lat), ("lon", JVal.num lon)]))) t
      = ([Event.printed (gen_tll lat lon "ROV" t "T"),
          Event.udp (gen_tll lat lon "ROV" t "T")], some "SerialException") := rfl

/-- C7 counterexample: at longitude 599999/150000 (within [-180, 180]) the
rendered field is `00359.1000`, which admits no decomposition into 3 degree
digits, 2 minute digits, a dot and exactly 3 fractional digits. -/
theorem lng_format_width_cx :
    lng_format (599999/150000) = "00359.1000" ∧
    ¬ ∃ d m f : String, lng_format (599999/150000) = d ++ m ++ "." ++ f ∧
        d.length = 3 ∧ m.length = 2 ∧ f.length = 3 := by
  refine ⟨lng_format_at_carry, ?_⟩
  rintro ⟨d, m, f, heq, hd, hm, hf⟩
  rw [lng_format_at_carry] at heq
  have hlen := congrArg String.length heq
  rw [String.length_append, String.length_append, String.length_append, hd, hm, hf] at hlen
  exact absurd hlen (by decide)

/-- C7 amended: for latitudes in [-90, 90] and longitudes in [-180, 180] whose
thousandths-of-a-minute rounding stays below 1000 (the missing-carry bug of C3
does not fire), the latitude field is exactly 2 degree digits, 2 minute digits,
a dot and 3 fractional digits, and the longitude field the same with 3 degree
digits. -/
theorem coordinate_field_widths (lat lng : ℚ)
    (hlat : |lat| ≤ 90) (hlng : |lng| ≤ 180)
    (hlsec : latSec lat ≤ 999) (hgsec : lngSec lng ≤ 999) :
    (∃ d m f : String, lat_format lat = d ++ m ++ "." ++ f ∧
        d.length = 2 ∧ m.length = 2 ∧ f.length = 3) ∧
    (∃ d m f : String, lng_format lng = d ++ m ++ "." ++ f ∧
        d.length = 3 ∧ m.length = 2 ∧ f.length = 3) := by
  have hdeg_lat : (⌊|lat|⌋).toNat < 10 ^ 2 := by
    have h1 : ⌊|lat|⌋ ≤ 90 := by
      have := Int.floor_le_floor hlat
      simpa using this
    omega
  have hdeg_lng : (⌊|lng|⌋).toNat < 10 ^ 3 := by
    have h1 : ⌊|lng|⌋ ≤ 180 := by
      have := Int.floor_le_floor hlng
      simpa using this
    omega
  have hmin_lat : (⌊latMinQ lat⌋).toNat < 10 ^ 2 := by
    have h1 : latMinQ lat < 60 := by
      unfold latMinQ
      have hfr : |lat| - ⌊|lat|⌋ < 1 := by
        have := Int.fract_lt_one |lat|
        unfold Int.fract at this
        linarith
      linarith
    have h2 : ⌊latMinQ lat⌋ < 60 := by
      have := Int.floor_lt.mpr (by push_cast; linarith : latMinQ lat < ((60 : ℤ) : ℚ))
      omega
    omega
  have hmin_lng : (⌊lngMinQ lng⌋).toNat < 10 ^ 2 := by
    have h1 : lngMinQ lng < 60 := by
      unfold lngMinQ
      have hfr : |lng| - ⌊|lng|⌋ < 1 := by
        have := Int.fract_lt_one |lng|
        unfold Int.fract at this
        linarith
      linarith
    have h2 : ⌊lngMinQ lng⌋ < 60 := by
      have := Int.floor_lt.mpr (by push_cast; linarith : lngMinQ lng < ((60 : ℤ) : ℚ))
      omega
    omega
  have hsec_lat : (latSec lat).toNat < 10 ^ 3 := by omega
  have hsec_lng : (lngSec lng).toNat < 10 ^ 3 := by omega
  constructor
  · exact ⟨_, _, _, rfl, padNum_length 2 _ (by omega) hdeg_lat,
      padNum_length 2 _ (by omega) hmin_lat, padNum_length 3 _ (by omega) hsec_lat⟩
  · exact ⟨_, _, _, rfl, padNum_length 3 _ (by omega) hdeg_lng,
      padNum_length 2 _ (by omega) hmin_lng, padNum_length 3 _ (by omega) hsec_lng⟩

/-- Witness for the amended C7 at latitude and longitude 0. -/
theorem coordinate_field_widths_w :
    ∃ d m f : String, lat_format 0 = d ++ m ++ "." ++ f ∧
        d.length = 2 ∧ m.length = 2 ∧ f.length = 3 :=
  (coordinate_field_widths 0 0 (by norm_num) (by norm_num)
      (by norm_num [latSec, latMinQ, pyround])
      (by norm_num [lngSec, lngMinQ, pyround])).1

/-- C8: the ship-name field of the sentence is the literal `ROV` whatever
target-name string the caller supplies, so two calls differing only in that
argument return identical sentences. -/
theorem gen_tll_name_hardcoded (lat lng : ℚ) (n₁ n₂ : String) (t : TimeT) (T : String) :
    gen_tll lat lng n₁ t T = gen_tll lat lng n₂ t T ∧
    tll_body lat lng n₁ t T =
      "RATLL,01," ++ lat_format lat ++ "," ++ lat_pole_prime lat ++ "," ++
        lng_format lng ++ "," ++ lng_pole_prime lng ++ "," ++ "ROV" ++ "," ++
        hhmmssss t ++ "," ++ T := ⟨rfl, rfl⟩

/-- C9: in a fully successful cycle the UDP datagram payload is the raw
sentence with no terminator appended, while the serial sink receives the
sentence followed by a single newline. -/
theorem dispatch_line_terminators (lat lon : ℚ) (t : TimeT) :
    loopCycle true true true
        (FetchOutcome.resp 200 (some (JVal.obj [("lat", JVal.num lat), ("lon", JVal.num lon)]))) t
      = ([Event.printed (gen_tll lat lon "ROV" t "T"),
          Event.udp (gen_tll lat lon "ROV" t "T"),
          Event.serialWrite (gen_tll lat lon "ROV" t "T" ++ "\n"),
          Event.slept 1], none) := rfl

/-- C10: a success response whose body decodes to a falsy JSON value (empty
object, null, etc.) is treated like an unavailable position — the cycle
produces no events and no crash. -/
theorem falsy_position_skipped (hasSock hasSer serOk : Bool) (v : JVal) (t : TimeT)
    (h : v.truthy = false) :
    loopCycle hasSock hasSer serOk (FetchOutcome.resp 200 (some v)) t = ([], none) := by
  have hg : get_data (FetchOutcome.resp 200 (some v)) = Except.ok (some v) := rfl
  unfold loopCycle
  rw [hg]
  simp [h]

/-- Witness for C10 at the empty JSON object. -/
theorem falsy_position_skipped_w :
    loopCycle true true true (FetchOutcome.resp 200 (some (JVal.obj []))) ⟨0, 0, 0⟩
      = ([], none) :=
  falsy_position_skipped true true true (JVal.obj []) ⟨0, 0, 0⟩ rfl

end RadarTLL
